import Mathlib

/-!
Verification of the resume-scoring microservice core
(`app/scorer.py` and the `/score` endpoint of `app/main.py`).

The scoring pipeline is embedded shallowly:

* Python strings stay `String`; Python floats (probabilities, scores) are
  modelled as exact rationals `ℚ` (the spec's formulas are stated over real
  arithmetic, not floating point rounding).
* The two external text capabilities — `fuzz.ratio` (a 0–100 similarity
  score) and NLTK lemmatization — are opaque to the core, so they are
  parameters of the embedding, bundled in `MatchPrims`.  Theorems quantify
  over them; concrete witnesses instantiate them with simple executable
  functions.
* Python `dict` built by comprehension is modelled by an association list
  with first-occurrence key order and last-write-wins values
  (`dictOfPairs`); `dict.get` is `pyGet`/`pyGetD`.
* Python's stable `sorted` is modelled by `List.insertionSort`, which is
  stable and sorted, hence produces the same list for a total preorder.
* `str.split()` (whitespace split, empties dropped) is `pywords`;
  `str.strip()` is `pyStrip`; string comparison is `pyStrLe` (code-point
  lexicographic) — all defined over character lists by structural
  recursion so that concrete instances reduce in the kernel.
* Model/vectorizer loading and `predict_proba` happen outside the core; the
  whole `try` block of `scorer.py` lines 107–114 is modelled by a parameter
  `classifierProb : Except String ℚ` (`.error` = artifact missing / model
  failure, `.ok p` = positive-class probability).
-/

namespace ResumeScorer

/-- External text primitives of `scorer.py`: `fuzz.ratio` (character-level
similarity, 0–100) and `lemmatize_text_for_matching` (tokenize, lemmatize,
re-join with single spaces). -/
structure MatchPrims where
  ratio : String → String → Nat
  lemmatize : String → String

/-- A goal requirement: one entry of `goals.json`'s list for a goal,
`{name, importance}`. -/
structure SkillReq where
  name : String
  importance : String
deriving Repr, DecidableEq

/-- The configuration fields `score_resume` reads: `minimum_score_to_pass`
(indexed directly, so required) and `max_missing_skills`
(`config.get("max_missing_skills", 15)`, so optional). -/
structure Config where
  minimum_score_to_pass : ℚ
  max_missing_skills : Option Nat
deriving Repr, DecidableEq

/-- Association list standing for a Python `dict` keyed by strings. -/
abbrev Dict (α : Type) := List (String × α)

/-- `d.get(k)` / `d[k]` lookup: first (and, for dicts built by
`dictOfPairs`, only) binding of `k`. -/
def pyGet {α : Type} (d : Dict α) (k : String) : Option α :=
  (d.find? (fun p => p.1 = k)).map (·.2)

/-- `d.get(k, v)`: lookup with default. -/
def pyGetD {α : Type} (d : Dict α) (k : String) (v : α) : α :=
  (pyGet d k).getD v

/-- `d[k] = v` on a Python dict: overwrite in place if the key exists
(keeping its position), else append. -/
def pyDictInsert {α : Type} (d : Dict α) (k : String) (v : α) : Dict α :=
  if d.any (fun p => p.1 = k) then
    d.map (fun p => if p.1 = k then (k, v) else p)
  else
    d ++ [(k, v)]

/-- A dict built from pairs left to right, as the comprehension
`{item["name"]: item["importance"] for item in ...}` does: key order is
first occurrence, value is the last write. -/
def dictOfPairs {α : Type} (l : List (String × α)) : Dict α :=
  l.foldl (fun d p => pyDictInsert d p.1 p.2) []

/-- Split a character list at whitespace characters (keeping empty
pieces, like `String.split`). -/
def splitWsAux (cur : List Char) : List Char → List (List Char)
  | [] => [cur.reverse]
  | c :: cs =>
      if c.isWhitespace then cur.reverse :: splitWsAux [] cs
      else splitWsAux (c :: cur) cs

/-- Python `str.split()` with no argument: split on whitespace runs,
dropping empty pieces.  (Defined over the character list so that it
reduces in the kernel; `String.split` does not.) -/
def pywords (s : String) : List String :=
  ((splitWsAux [] s.data).filter (fun w => w ≠ [])).map (fun w => String.mk w)

/-- Python `str.strip()`: drop leading and trailing whitespace.  (Kernel-
reducible counterpart of `String.trim`.) -/
def pyStrip (s : String) : String :=
  String.mk ((((s.data.dropWhile Char.isWhitespace).reverse).dropWhile
    Char.isWhitespace).reverse)

/-- Code-point lexicographic `≤` on character lists: Python's string
comparison. -/
def charListLe : List Char → List Char → Bool
  | [], _ => true
  | _ :: _, [] => false
  | a :: as, b :: bs =>
      if a.toNat < b.toNat then true
      else if b.toNat < a.toNat then false
      else charListLe as bs

/-- Python's `<=` on strings (code-point lexicographic). -/
def pyStrLe (a b : String) : Prop :=
  charListLe a.data b.data = true

instance : DecidableRel pyStrLe := fun a b => by
  unfold pyStrLe; infer_instance

/-- The window of `n` consecutive words starting at index `i`. -/
def windowAt (ws : List String) (n i : Nat) : String :=
  String.intercalate " " ((ws.drop i).take n)

/-- All windows scanned by the loop
`for i in range(len(text_words) - n + 1)` of `phrase_in_lemmatized_text`. -/
def windowStarts (ws : List String) (n : Nat) : List Nat :=
  List.range (ws.length + 1 - n)

/-- `phrase_in_lemmatized_text(phrase, lemmatized_text, threshold)`
(`scorer.py` lines 34–55): lemmatize the phrase, slide an `n`-word window
over the text returning true at the first window whose `fuzz.ratio` with
the lemmatized phrase reaches `threshold`; otherwise, for multi-word
phrases, return true if any phrase word and text word have ratio ≥ 80;
otherwise false.  (`max_score` in the source is used only for logging.) -/
def phrase_in_lemmatized_text (P : MatchPrims) (phrase lemmatizedText : String)
    (threshold : Nat) : Bool :=
  let phraseLemmatized := P.lemmatize phrase
  let phraseWords := pywords phraseLemmatized
  let n := phraseWords.length
  let textWords := pywords lemmatizedText
  if (windowStarts textWords n).any
      (fun i => threshold ≤ P.ratio (windowAt textWords n i) phraseLemmatized) then
    true
  else if 1 < n then
    phraseWords.any (fun w => textWords.any (fun tw => 80 ≤ P.ratio w tw))
  else
    false

/-- The goal's requirement list, `goals_map.get(goal, [])`. -/
def goalReqs (goals_map : Dict (List SkillReq)) (goal : String) : List SkillReq :=
  pyGetD goals_map goal []

/-- `goal_skills_with_importance = {item["name"]: item["importance"] for item
in goals_map.get(goal, [])}` (`scorer.py` line 117). -/
def goalSkillsWithImportance (goals_map : Dict (List SkillReq)) (goal : String) :
    Dict String :=
  dictOfPairs ((goalReqs goals_map goal).map (fun r => (r.name, r.importance)))

/-- `goal_skill_names = set(goal_skills_with_importance.keys())`
(line 118).  Python's set iteration order is unspecified; every observable
output of `score_resume` is invariant under it (sums, sorted lists,
membership tests), so the set is represented by the dict's key list. -/
def goalSkillNames (goals_map : Dict (List SkillReq)) (goal : String) : List String :=
  (goalSkillsWithImportance goals_map goal).map (·.1)

/-- The matching cascade for one required skill (`scorer.py` lines
132–153): direct fuzzy match at threshold 70, else the skill's alternates
in table order at 70 (first hit wins), else a partial fuzzy match of the
skill itself at threshold 55. -/
def skillMatched (P : MatchPrims) (alternate_skills_map : Dict (List String))
    (lemmatizedResume : String) (skill : String) : Bool :=
  if phrase_in_lemmatized_text P skill lemmatizedResume 70 then
    true
  else
    match pyGet alternate_skills_map skill with
    | some alts =>
        if alts.any (fun alt => phrase_in_lemmatized_text P alt lemmatizedResume 70) then
          true
        else
          phrase_in_lemmatized_text P skill lemmatizedResume 55
    | none => phrase_in_lemmatized_text P skill lemmatizedResume 55

/-- `matched_skills` as accumulated by the loop of lines 129–158: the
required skill names that pass the matching cascade, in iteration order. -/
def matchedSkills (P : MatchPrims) (alternate_skills_map : Dict (List String))
    (goals_map : Dict (List SkillReq)) (goal : String)
    (lemmatizedResume : String) : List String :=
  (goalSkillNames goals_map goal).filter
    (skillMatched P alternate_skills_map lemmatizedResume)

/-- `all_missing_skills`: the required skills failing the cascade, each
paired with `goal_skills_with_importance.get(skill_name, "unknown")`
(line 155). -/
def allMissingSkills (P : MatchPrims) (alternate_skills_map : Dict (List String))
    (goals_map : Dict (List SkillReq)) (goal : String)
    (lemmatizedResume : String) : List (String × String) :=
  ((goalSkillNames goals_map goal).filter
      (fun s => ¬ skillMatched P alternate_skills_map lemmatizedResume s)).map
    (fun s => (s, pyGetD (goalSkillsWithImportance goals_map goal) s "unknown"))

/-- `importance_weights.get(imp, 0)` for
`importance_weights = {"core": 3, "important": 2, "nice_to_have": 1}`
(line 161). -/
def importanceWeight (imp : String) : Nat :=
  if imp = "core" then 3
  else if imp = "important" then 2
  else if imp = "nice_to_have" then 1
  else 0

/-- The weight a skill name receives in the sums of lines 162–169:
`importance_weights.get(goal_skills_with_importance.get(skill,
"nice_to_have"), 0)`. -/
def skillWeight (goals_map : Dict (List SkillReq)) (goal : String)
    (skill : String) : Nat :=
  importanceWeight (pyGetD (goalSkillsWithImportance goals_map goal) skill "nice_to_have")

/-- `total_skill_points` (lines 162–165): weights summed over all required
skill names. -/
def totalSkillPoints (goals_map : Dict (List SkillReq)) (goal : String) : Nat :=
  ((goalSkillNames goals_map goal).map (skillWeight goals_map goal)).sum

/-- `matched_skill_points` (lines 166–169): weights summed over the matched
skill names. -/
def matchedSkillPoints (P : MatchPrims) (alternate_skills_map : Dict (List String))
    (goals_map : Dict (List SkillReq)) (goal : String)
    (lemmatizedResume : String) : Nat :=
  ((matchedSkills P alternate_skills_map goals_map goal lemmatizedResume).map
      (skillWeight goals_map goal)).sum

/-- `skill_score = matched_skill_points / total_skill_points if
total_skill_points > 0 else 0` (line 170). -/
def skillScore (P : MatchPrims) (alternate_skills_map : Dict (List String))
    (goals_map : Dict (List SkillReq)) (goal : String)
    (lemmatizedResume : String) : ℚ :=
  let total := totalSkillPoints goals_map goal
  if 0 < total then
    (matchedSkillPoints P alternate_skills_map goals_map goal lemmatizedResume : ℚ) / total
  else 0

/-- `final_score = 0.6 * prob + 0.4 * skill_score` (lines 173–175). -/
def finalScore (P : MatchPrims) (alternate_skills_map : Dict (List String))
    (goals_map : Dict (List SkillReq)) (goal : String)
    (lemmatizedResume : String) (prob : ℚ) : ℚ :=
  (0.6 : ℚ) * prob + (0.4 : ℚ) * skillScore P alternate_skills_map goals_map goal lemmatizedResume

/-- `importance_order.get(imp, 99)` for
`importance_order = {"core": 1, "important": 2, "nice_to_have": 3}`
(line 119), the sort key's first component at line 182. -/
def importanceRank (imp : String) : Nat :=
  if imp = "core" then 1
  else if imp = "important" then 2
  else if imp = "nice_to_have" then 3
  else 99

/-- The comparison of line 182's sort key
`(importance_order.get(x[1], 99), x[0])`: lexicographic on
(rank, name). -/
def missingLE (a b : String × String) : Prop :=
  importanceRank a.2 < importanceRank b.2 ∨
    (importanceRank a.2 = importanceRank b.2 ∧ pyStrLe a.1 b.1)

instance : DecidableRel missingLE := fun a b => by
  unfold missingLE; infer_instance

/-- `sorted_missing_skills = sorted(all_missing_skills, key=...)`
(line 182).  Python's `sorted` is stable; `List.insertionSort` is the
stable sort by the same total preorder, hence produces the same list. -/
def sortedMissingSkills (P : MatchPrims) (alternate_skills_map : Dict (List String))
    (goals_map : Dict (List SkillReq)) (goal : String)
    (lemmatizedResume : String) : List (String × String) :=
  List.insertionSort missingLE
    (allMissingSkills P alternate_skills_map goals_map goal lemmatizedResume)

/-- `capped_missing_skills_names` (line 183): the names of the sorted
missing skills, truncated to `max_missing_skills`. -/
def cappedMissingNames (P : MatchPrims) (alternate_skills_map : Dict (List String))
    (goals_map : Dict (List SkillReq)) (goal : String)
    (lemmatizedResume : String) (maxMissing : Nat) : List String :=
  ((sortedMissingSkills P alternate_skills_map goals_map goal lemmatizedResume).map
      (·.1)).take maxMissing

/-- The suggestion for one missing skill (line 186):
`suggestion_map.get(skill_name, f"Learn basics of {skill_name}")`. -/
def suggestionFor (suggestion_map : Dict String) (skill : String) : String :=
  pyGetD suggestion_map skill ("Learn basics of " ++ skill)

/-- Alphabetical sort by Python string comparison (code-point
lexicographic), as `sorted(...)` on a name list. -/
def sortAlpha (l : List String) : List String :=
  List.insertionSort pyStrLe l

/-- One iteration of the group-insight loop (`scorer.py` lines 190–200)
for the group `gp = (group name, its skill list)`: the group's required
skill names, then either the sorted unmatched group skills (when the group
has a match) or the sorted missing group skills (when it has none); `none`
when the computed list is empty (the group is omitted). -/
def groupEntry (P : MatchPrims) (alternate_skills_map : Dict (List String))
    (goals_map : Dict (List SkillReq)) (goal : String)
    (lemmatizedResume : String) (gp : String × List String) :
    Option (String × List String) :=
  let matched := matchedSkills P alternate_skills_map goals_map goal lemmatizedResume
  let groupSkillNames :=
    (goalSkillNames goals_map goal).filter (fun s => gp.2.contains s)
  let groupMatched := matched.filter (fun s => groupSkillNames.contains s)
  if groupMatched ≠ [] then
    let toRecommend :=
      sortAlpha (groupSkillNames.filter (fun s => ¬ matched.contains s))
    if toRecommend ≠ [] then some (gp.1, toRecommend) else none
  else
    let groupMissing :=
      ((allMissingSkills P alternate_skills_map goals_map goal
          lemmatizedResume).map (·.1)).filter
        (fun s => groupSkillNames.contains s)
    if groupMissing ≠ [] then some (gp.1, sortAlpha groupMissing) else none

/-- The group-insight loop (`scorer.py` lines 188–200), building
`missing_grouped` from the UNCAPPED matched/missing sets.  Each group of
`skill_groups.get(goal, {})` contributes at most one entry; group keys of a
JSON dict are unique, so the dict build is an append per group. -/
def missingGrouped (P : MatchPrims) (alternate_skills_map : Dict (List String))
    (goals_map : Dict (List SkillReq)) (goal : String)
    (skill_groups : Dict (Dict (List String)))
    (lemmatizedResume : String) : List (String × List String) :=
  (pyGetD skill_groups goal []).filterMap
    (groupEntry P alternate_skills_map goals_map goal lemmatizedResume)

/-- The dict returned by `score_resume` (lines 212–219). -/
structure ScoringResult where
  score : ℚ
  is_pass : Bool
  matched_skills : List String
  missing_skills : List String
  missing_skills_grouped : List (String × List String)
  suggested_learning_path : List String
deriving Repr, DecidableEq

/-- The result `score_resume` builds once validation and the model call
have succeeded (lines 116–219), for classifier probability `prob`. -/
def buildResult (P : MatchPrims) (goal : String) (resume_text : String)
    (config : Config) (goals_map : Dict (List SkillReq))
    (suggestion_map : Dict String) (skill_groups : Dict (Dict (List String)))
    (alternate_skills_map : Dict (List String)) (prob : ℚ) : ScoringResult :=
  let lemmatizedResume := P.lemmatize resume_text
  let score := finalScore P alternate_skills_map goals_map goal lemmatizedResume prob
  let maxMissing := config.max_missing_skills.getD 15
  let capped :=
    cappedMissingNames P alternate_skills_map goals_map goal lemmatizedResume maxMissing
  { score := score
    is_pass := decide (config.minimum_score_to_pass ≤ score)
    matched_skills :=
      sortAlpha (matchedSkills P alternate_skills_map goals_map goal lemmatizedResume)
    missing_skills := sortAlpha capped
    missing_skills_grouped :=
      missingGrouped P alternate_skills_map goals_map goal skill_groups lemmatizedResume
    suggested_learning_path := capped.map (suggestionFor suggestion_map) }

/-- The failures `score_resume` can raise: the `ValueError` of line 104 for
blank text, and any exception of the model-loading / prediction block
(lines 107–114), carried with its message. -/
inductive ScoreError where
  | emptyResume : ScoreError
  | modelError : String → ScoreError
deriving Repr, DecidableEq

/-- `score_resume` (`scorer.py` lines 99–219): reject blank text, run the
classifier (modelled by the `classifierProb` argument), then build the
scoring result. -/
def score_resume (P : MatchPrims) (goal : String) (resume_text : String)
    (config : Config) (goals_map : Dict (List SkillReq))
    (suggestion_map : Dict String) (skill_groups : Dict (Dict (List String)))
    (alternate_skills_map : Dict (List String))
    (classifierProb : Except String ℚ) : Except ScoreError ScoringResult :=
  if pyStrip resume_text = "" then
    .error .emptyResume
  else
    match classifierProb with
    | .error e => .error (.modelError e)
    | .ok prob =>
        .ok (buildResult P goal resume_text config goals_map suggestion_map
              skill_groups alternate_skills_map prob)

/-- The classified failures of the `/score` endpoint (`main.py` lines
68–100): 400 for blank text, 400 for a goal outside
`model_goals_supported`, 500 for errors out of the scorer (model artifact
missing, prediction failure, ...). -/
inductive ApiError where
  | emptyInput : ApiError
  | unsupportedGoal : String → ApiError
  | internalError : String → ApiError
deriving Repr, DecidableEq

/-- `post_score` (`main.py` lines 68–100): validate blank text, then goal
support, then delegate to `score_resume`, classifying its failures. -/
def post_score (P : MatchPrims) (goal : String) (resume_text : String)
    (supported : List String) (config : Config)
    (goals_map : Dict (List SkillReq)) (suggestion_map : Dict String)
    (skill_groups : Dict (Dict (List String)))
    (alternate_skills_map : Dict (List String))
    (classifierProb : Except String ℚ) : Except ApiError ScoringResult :=
  if pyStrip resume_text = "" then
    .error .emptyInput
  else if ¬ supported.contains goal then
    .error (.unsupportedGoal goal)
  else
    match score_resume P goal resume_text config goals_map suggestion_map
        skill_groups alternate_skills_map classifierProb with
    | .ok r => .ok r
    | .error .emptyResume => .error .emptyInput
    | .error (.modelError e) => .error (.internalError ("Error processing resume: " ++ e))

/-! ### Spec-side definitions

These follow the WORDS of the specification (not the source); they exist to
be compared with the source-derived definitions above. -/

/-- Match outcome per spec §4.3 / §3: each requirement resolves to exactly
one of four states. -/
inductive MatchOutcome where
  | matched_direct : MatchOutcome
  | matched_alternate : String → MatchOutcome
  | matched_partial_credit : MatchOutcome
  | missing : String → MatchOutcome
deriving Repr, DecidableEq

/-- Modelled from the spec §4.3 (the claim's resolver): try a direct match
of `s` at 70; else the declared alternates in table order at 70, stopping
at the first hit; else a partial match of `s` at 55; else missing with the
requirement's importance.  A skill with no alternate-table entry skips the
alternate step. -/
def specResolveSkill (P : MatchPrims) (alternate_skills_map : Dict (List String))
    (lemmatizedResume : String) (skill importance : String) : MatchOutcome :=
  if phrase_in_lemmatized_text P skill lemmatizedResume 70 then
    .matched_direct
  else
    match ((pyGet alternate_skills_map skill).getD []).find?
        (fun alt => phrase_in_lemmatized_text P alt lemmatizedResume 70) with
    | some alt => .matched_alternate alt
    | none =>
        if phrase_in_lemmatized_text P skill lemmatizedResume 55 then
          .matched_partial_credit
        else
          .missing importance

/-- `true` iff a spec outcome is one of the matched states. -/
def MatchOutcome.isMatched : MatchOutcome → Bool
  | .missing _ => false
  | _ => true

/-- Modelled from the spec's words in claim C2: a skill of unknown
importance "defaults to nice_to_have weight for denominator purposes", so
the claimed denominator weight table is core 3, important 2, everything
else 1. -/
def specC2Weight (imp : String) : Nat :=
  if imp = "core" then 3
  else if imp = "important" then 2
  else 1

/-- The denominator claim C2 describes: sum of `specC2Weight` over all of
the goal's required skill names. -/
def specC2TotalPoints (goals_map : Dict (List SkillReq)) (goal : String) : Nat :=
  ((goalSkillNames goals_map goal).map
    (fun s => specC2Weight (pyGetD (goalSkillsWithImportance goals_map goal) s "unknown"))).sum

/-- The numerator claim C2 describes: an unrecognized-importance skill
"contributes to the numerator when matched", i.e. the matched skills are
summed with the same nice_to_have-defaulted weight table. -/
def specC2MatchedPoints (P : MatchPrims) (alternate_skills_map : Dict (List String))
    (goals_map : Dict (List SkillReq)) (goal : String)
    (lemmatizedResume : String) : Nat :=
  ((matchedSkills P alternate_skills_map goals_map goal lemmatizedResume).map
    (fun s => specC2Weight (pyGetD (goalSkillsWithImportance goals_map goal) s "unknown"))).sum

/-- The ordering claim C5 asserts of the returned `missing_skills` list:
consecutive entries are ordered by (importance rank, name), ranks taken
from the goal's requirement table (99 for unrecognized importance). -/
def specRankNameOrdered (goals_map : Dict (List SkillReq)) (goal : String)
    (l : List String) : Prop :=
  l.Pairwise (fun a b =>
    missingLE (a, pyGetD (goalSkillsWithImportance goals_map goal) a "unknown")
      (b, pyGetD (goalSkillsWithImportance goals_map goal) b "unknown"))

/-- Modelled from claim C1's words: `skill_score` is the sum of importance
weights (core 3, important 2, nice_to_have 1) over the matched
requirements divided by the sum over all requirements, and 0 when the goal
has zero requirements. -/
def specC1SkillScore (P : MatchPrims) (alternate_skills_map : Dict (List String))
    (goals_map : Dict (List SkillReq)) (goal : String)
    (lemmatizedResume : String) : ℚ :=
  let reqs := goalReqs goals_map goal
  if reqs = [] then 0
  else
    (((reqs.filter (fun r =>
          skillMatched P alternate_skills_map lemmatizedResume r.name)).map
        (fun r => (importanceWeight r.importance : ℚ))).sum) /
      ((reqs.map (fun r => (importanceWeight r.importance : ℚ))).sum)

/-! ### Concrete instantiation of the external text primitives

Used by witnesses and counterexamples: similarity 100 for equal strings
and 0 otherwise, lemmatization the identity.  Both are legitimate
instances of the external capabilities (a ratio function and a text
normalizer). -/

/-- Exact-equality similarity with identity lemmatization. -/
def exactPrims : MatchPrims :=
  { ratio := fun a b => if a = b then 100 else 0
    lemmatize := fun s => s }

/-! ### Helper lemmas -/

/-- On non-blank text with an available classifier, `score_resume` succeeds
with the built result. -/
theorem score_resume_ok (P : MatchPrims) (goal resume_text : String)
    (config : Config) (goals_map : Dict (List SkillReq))
    (suggestion_map : Dict String) (skill_groups : Dict (Dict (List String)))
    (alternate_skills_map : Dict (List String)) (prob : ℚ)
    (h : pyStrip resume_text ≠ "") :
    score_resume P goal resume_text config goals_map suggestion_map
        skill_groups alternate_skills_map (.ok prob) =
      .ok (buildResult P goal resume_text config goals_map suggestion_map
            skill_groups alternate_skills_map prob) := by
  unfold score_resume
  rw [if_neg h]

/-! ### Claim C4 — fuzzy matcher characterization -/

/-- **C4.** For every phrase, normalized text, and threshold, the fuzzy
matcher returns true iff some window of `n` consecutive text words
(`n` = word count of the normalized phrase) has similarity ratio ≥
threshold with the normalized phrase, or `n > 1` and some phrase word has
pairwise ratio ≥ 80 with some text word; otherwise false. -/
theorem c4_fuzzy_matcher_iff (P : MatchPrims) (phrase text : String)
    (threshold : Nat) :
    phrase_in_lemmatized_text P phrase text threshold = true ↔
      ((∃ i, i + (pywords (P.lemmatize phrase)).length ≤ (pywords text).length ∧
          threshold ≤ P.ratio
            (windowAt (pywords text) (pywords (P.lemmatize phrase)).length i)
            (P.lemmatize phrase)) ∨
        (1 < (pywords (P.lemmatize phrase)).length ∧
          ∃ w ∈ pywords (P.lemmatize phrase), ∃ tw ∈ pywords text,
            80 ≤ P.ratio w tw)) := by
  unfold phrase_in_lemmatized_text
  simp only [windowStarts, List.any_eq_true, List.mem_range, decide_eq_true_eq]
  constructor
  · intro h
    split at h
    · rename_i hw
      obtain ⟨i, hi, hr⟩ := hw
      exact Or.inl ⟨i, by omega, hr⟩
    · split at h
      · rename_i hn
        refine Or.inr ⟨hn, ?_⟩
        simpa using h
      · exact absurd h (by simp)
  · intro h
    split
    · rfl
    · rename_i hw
      rcases h with ⟨i, hi, hr⟩ | ⟨hn, hword⟩
      · exact absurd ⟨i, by omega, hr⟩ hw
      · rw [if_pos hn]
        simpa using hword

/-! ### Claim C3 — resolver cascade refines the spec's resolver -/

/-- The source's per-skill cascade agrees with the spec-modelled resolver:
a skill counts as matched exactly when `specResolveSkill` does not say
missing. -/
theorem skillMatched_eq_specResolve (P : MatchPrims)
    (altMap : Dict (List String)) (ltext skill imp : String) :
    skillMatched P altMap ltext skill =
      (specResolveSkill P altMap ltext skill imp).isMatched := by
  unfold skillMatched specResolveSkill
  by_cases hdir : phrase_in_lemmatized_text P skill ltext 70 = true
  · simp [hdir, MatchOutcome.isMatched]
  · simp only [Bool.not_eq_true] at hdir
    cases halt : pyGet altMap skill with
    | none =>
        simp only [hdir, halt, Option.getD_none, List.find?_nil]
        cases hp : phrase_in_lemmatized_text P skill ltext 55 <;>
          simp [MatchOutcome.isMatched]
    | some alts =>
        simp only [hdir, halt, Option.getD_some]
        by_cases hany :
            alts.any (fun alt => phrase_in_lemmatized_text P alt ltext 70) = true
        · have hsome :
              (alts.find? (fun alt => phrase_in_lemmatized_text P alt ltext 70)).isSome := by
            rw [List.find?_isSome]
            simpa using hany
          obtain ⟨a, ha⟩ := Option.isSome_iff_exists.mp hsome
          simp [hany, ha, MatchOutcome.isMatched]
        · have hnone :
              alts.find? (fun alt => phrase_in_lemmatized_text P alt ltext 70) = none := by
            rw [List.find?_eq_none]
            intro x hx hpx
            exact hany (List.any_eq_true.mpr ⟨x, hx, hpx⟩)
          rw [if_neg hany, hnone]
          cases hp : phrase_in_lemmatized_text P skill ltext 55 <;>
            simp [MatchOutcome.isMatched]

/-- **C3.** The resolver classifies each required skill by trying a direct
fuzzy match at 70, then the declared alternates in table order at 70
(first hit), then a partial fuzzy match at 55, recording the skill as
missing with its importance only when all fail; a skill with no
alternate-table entry skips the alternate step.  Formally: the code's
cascade returns exactly what the spec-modelled resolver
(`specResolveSkill`) classifies as matched; the missing list pairs each
unresolved skill with its importance; and without an alternate entry the
outcome is direct-or-partial only. -/
theorem c3_resolver_cascade (P : MatchPrims) (altMap : Dict (List String))
    (goals_map : Dict (List SkillReq)) (goal ltext : String) :
    (∀ skill imp, skillMatched P altMap ltext skill =
        (specResolveSkill P altMap ltext skill imp).isMatched)
    ∧ allMissingSkills P altMap goals_map goal ltext =
        ((goalSkillNames goals_map goal).filter (fun s =>
            (specResolveSkill P altMap ltext s
              (pyGetD (goalSkillsWithImportance goals_map goal) s
                "unknown")).isMatched = false)).map
          (fun s => (s, pyGetD (goalSkillsWithImportance goals_map goal) s "unknown"))
    ∧ (∀ skill, pyGet altMap skill = none →
        skillMatched P altMap ltext skill =
          (phrase_in_lemmatized_text P skill ltext 70
            || phrase_in_lemmatized_text P skill ltext 55)) := by
  refine ⟨fun skill imp => skillMatched_eq_specResolve P altMap ltext skill imp, ?_, ?_⟩
  · unfold allMissingSkills
    congr 1
    apply List.filter_congr
    intro s _
    have h := skillMatched_eq_specResolve P altMap ltext s
      (pyGetD (goalSkillsWithImportance goals_map goal) s "unknown")
    rw [h]
    cases (specResolveSkill P altMap ltext s
        (pyGetD (goalSkillsWithImportance goals_map goal) s "unknown")).isMatched <;>
      simp
  · intro skill h
    unfold skillMatched
    rw [h]
    by_cases hdir : phrase_in_lemmatized_text P skill ltext 70 = true <;>
      simp [hdir]

/-- Inserting a fresh key into a dict appends it. -/
theorem pyDictInsert_of_not_mem {α : Type} (d : Dict α) (k : String) (v : α)
    (h : ∀ p ∈ d, p.1 ≠ k) : pyDictInsert d k v = d ++ [(k, v)] := by
  unfold pyDictInsert
  rw [if_neg]
  simp only [List.any_eq_true, decide_eq_true_eq, not_exists]
  intro p
  rw [not_and]
  exact h p

/-- Building a Python dict from pairs with pairwise-distinct keys just
accumulates the pairs. -/
theorem foldl_pyDictInsert_eq_append {α : Type} (l : List (String × α)) :
    ∀ acc : Dict α, (((acc ++ l).map Prod.fst).Nodup) →
      l.foldl (fun d p => pyDictInsert d p.1 p.2) acc = acc ++ l := by
  induction l with
  | nil => intro acc _; simp
  | cons p ps ih =>
      intro acc h
      have hfresh : ∀ q ∈ acc, q.1 ≠ p.1 := by
        intro q hq he
        have h2 : (acc.map Prod.fst ++ (p.1 :: ps.map Prod.fst)).Nodup := by
          simpa using h
        exact List.disjoint_of_nodup_append h2
          (he ▸ List.mem_map_of_mem Prod.fst hq) (List.mem_cons_self _ _)
      have h3 : (((acc ++ [p]) ++ ps).map Prod.fst).Nodup := by
        rw [List.append_assoc]
        simpa using h
      rw [List.foldl_cons, pyDictInsert_of_not_mem _ _ _ hfresh, ih (acc ++ [p]) h3,
        List.append_assoc]
      rfl

/-- A pair list with distinct keys is its own Python dict. -/
theorem dictOfPairs_eq_self {α : Type} (l : List (String × α))
    (h : (l.map Prod.fst).Nodup) : dictOfPairs l = l := by
  have := foldl_pyDictInsert_eq_append l [] (by simpa using h)
  simpa [dictOfPairs] using this

/-- `pyGet` on a cons. -/
theorem pyGet_cons {α : Type} (k : String) (v : α) (d : Dict α) (k' : String) :
    pyGet ((k, v) :: d) k' = if k = k' then some v else pyGet d k' := by
  by_cases h : k = k'
  · unfold pyGet
    rw [List.find?_cons_of_pos _ (by simp [h]), if_pos h]
    rfl
  · unfold pyGet
    rw [List.find?_cons_of_neg _ (by simp [h]), if_neg h]

/-- With distinct requirement names, looking a requirement's name up in
the name→importance pair list yields its importance. -/
theorem pyGet_reqPairs (reqs : List SkillReq)
    (h : (reqs.map SkillReq.name).Nodup) (r : SkillReq) (hr : r ∈ reqs) :
    pyGet (reqs.map (fun x => (x.name, x.importance))) r.name =
      some r.importance := by
  induction reqs with
  | nil => cases hr
  | cons a as ih =>
      rw [List.map_cons] at h ⊢
      rw [pyGet_cons]
      rcases List.mem_cons.mp hr with rfl | hmem
      · rw [if_pos rfl]
      · have hne : a.name ≠ r.name := by
          intro he
          exact (List.nodup_cons.mp h).1 (he ▸ List.mem_map_of_mem SkillReq.name hmem)
        rw [if_neg hne]
        exact ih (List.nodup_cons.mp h).2 hmem

/-- With distinct requirement names, the requirement dict is the pair
list itself. -/
theorem goalSkillsWithImportance_eq (goals_map : Dict (List SkillReq)) (goal : String)
    (h : ((goalReqs goals_map goal).map SkillReq.name).Nodup) :
    goalSkillsWithImportance goals_map goal =
      (goalReqs goals_map goal).map (fun r => (r.name, r.importance)) := by
  unfold goalSkillsWithImportance
  apply dictOfPairs_eq_self
  rw [List.map_map]
  exact h

/-- With distinct requirement names, the skill-name set is the name list. -/
theorem goalSkillNames_eq (goals_map : Dict (List SkillReq)) (goal : String)
    (h : ((goalReqs goals_map goal).map SkillReq.name).Nodup) :
    goalSkillNames goals_map goal = (goalReqs goals_map goal).map SkillReq.name := by
  unfold goalSkillNames
  rw [goalSkillsWithImportance_eq goals_map goal h, List.map_map]
  rfl

/-- With distinct requirement names, a requirement's importance lookup
never falls back to the default. -/
theorem pyGetD_impDict (goals_map : Dict (List SkillReq)) (goal : String)
    (h : ((goalReqs goals_map goal).map SkillReq.name).Nodup)
    (r : SkillReq) (hr : r ∈ goalReqs goals_map goal) (dflt : String) :
    pyGetD (goalSkillsWithImportance goals_map goal) r.name dflt = r.importance := by
  unfold pyGetD
  rw [goalSkillsWithImportance_eq goals_map goal h,
    pyGet_reqPairs (goalReqs goals_map goal) h r hr]
  rfl

/-- With distinct requirement names, each required skill's effective weight
is `importanceWeight` of its actual importance (the `"nice_to_have"`
dict-lookup default never fires). -/
theorem skillWeight_eq (goals_map : Dict (List SkillReq)) (goal : String)
    (h : ((goalReqs goals_map goal).map SkillReq.name).Nodup)
    (r : SkillReq) (hr : r ∈ goalReqs goals_map goal) :
    skillWeight goals_map goal r.name = importanceWeight r.importance := by
  unfold skillWeight
  rw [pyGetD_impDict goals_map goal h r hr]

/-- `total_skill_points` as a sum over the requirement list. -/
theorem totalSkillPoints_eq (goals_map : Dict (List SkillReq)) (goal : String)
    (h : ((goalReqs goals_map goal).map SkillReq.name).Nodup) :
    totalSkillPoints goals_map goal =
      ((goalReqs goals_map goal).map (fun r => importanceWeight r.importance)).sum := by
  unfold totalSkillPoints
  rw [goalSkillNames_eq goals_map goal h, List.map_map]
  congr 1
  apply List.map_congr_left
  intro r hr
  exact skillWeight_eq goals_map goal h r hr

/-- `matched_skill_points` as a sum over the filtered requirement list. -/
theorem matchedSkillPoints_eq (P : MatchPrims) (altMap : Dict (List String))
    (goals_map : Dict (List SkillReq)) (goal ltext : String)
    (h : ((goalReqs goals_map goal).map SkillReq.name).Nodup) :
    matchedSkillPoints P altMap goals_map goal ltext =
      (((goalReqs goals_map goal).filter
          (fun r => skillMatched P altMap ltext r.name)).map
        (fun r => importanceWeight r.importance)).sum := by
  unfold matchedSkillPoints matchedSkills
  rw [goalSkillNames_eq goals_map goal h, List.filter_map, List.map_map]
  simp only [Function.comp_def]
  congr 1
  apply List.map_congr_left
  intro r hr
  exact skillWeight_eq goals_map goal h r (List.mem_of_mem_filter hr)

/-- With distinct requirement names and recognized importances, the code's
`skill_score` is exactly the claim's weighted coverage ratio. -/
theorem skillScore_eq_spec (P : MatchPrims) (altMap : Dict (List String))
    (goals_map : Dict (List SkillReq)) (goal ltext : String)
    (h : ((goalReqs goals_map goal).map SkillReq.name).Nodup)
    (himp : ∀ r ∈ goalReqs goals_map goal,
      r.importance = "core" ∨ r.importance = "important" ∨
        r.importance = "nice_to_have") :
    skillScore P altMap goals_map goal ltext =
      specC1SkillScore P altMap goals_map goal ltext := by
  simp only [skillScore, specC1SkillScore]
  by_cases hreqs : goalReqs goals_map goal = []
  · rw [if_pos hreqs, totalSkillPoints_eq goals_map goal h, hreqs]
    simp
  · rw [if_neg hreqs]
    have hpos : 0 < totalSkillPoints goals_map goal := by
      rw [totalSkillPoints_eq goals_map goal h]
      cases hr : goalReqs goals_map goal with
      | nil => exact absurd hr hreqs
      | cons a as =>
          have ha : a ∈ goalReqs goals_map goal := by
            rw [hr]; exact List.mem_cons_self a as
          have hw : 1 ≤ importanceWeight a.importance := by
            rcases himp a ha with h1 | h1 | h1 <;> simp [importanceWeight, h1]
          simp only [List.map_cons, List.sum_cons]
          omega
    rw [if_pos hpos, totalSkillPoints_eq goals_map goal h,
      matchedSkillPoints_eq P altMap goals_map goal ltext h,
      Nat.cast_list_sum, Nat.cast_list_sum, List.map_map, List.map_map]
    rfl

/-! ### Claim C1 — final score formula and pass decision -/

/-- **C1.** For every scoring call with an available classifier and
non-blank resume text (on a goal table with distinct requirement names,
all of recognized importance, as the claim's weight table presumes), the
final score is `0.6 * model_probability + 0.4 * skill_score` with
`skill_score` the weighted coverage ratio of `specC1SkillScore` (0 for a
goal with zero requirements), and `is_pass` holds exactly when the final
score reaches `minimum_score_to_pass`. -/
theorem c1_final_score_formula (P : MatchPrims) (goal resume_text : String)
    (config : Config) (goals_map : Dict (List SkillReq))
    (suggestion_map : Dict String) (skill_groups : Dict (Dict (List String)))
    (altMap : Dict (List String)) (prob : ℚ) (res : ScoringResult)
    (hne : pyStrip resume_text ≠ "")
    (hnodup : ((goalReqs goals_map goal).map SkillReq.name).Nodup)
    (himp : ∀ r ∈ goalReqs goals_map goal,
      r.importance = "core" ∨ r.importance = "important" ∨
        r.importance = "nice_to_have")
    (hres : score_resume P goal resume_text config goals_map suggestion_map
        skill_groups altMap (.ok prob) = .ok res) :
    res.score = 0.6 * prob +
        0.4 * specC1SkillScore P altMap goals_map goal (P.lemmatize resume_text)
    ∧ (res.is_pass = true ↔ config.minimum_score_to_pass ≤ res.score) := by
  rw [score_resume_ok P goal resume_text config goals_map suggestion_map
    skill_groups altMap prob hne] at hres
  have hres' : buildResult P goal resume_text config goals_map suggestion_map
      skill_groups altMap prob = res := by injection hres
  subst hres'
  constructor
  · have hs : (buildResult P goal resume_text config goals_map suggestion_map
        skill_groups altMap prob).score =
          finalScore P altMap goals_map goal (P.lemmatize resume_text) prob := rfl
    rw [hs]
    unfold finalScore
    rw [skillScore_eq_spec P altMap goals_map goal (P.lemmatize resume_text)
      hnodup himp]
  · have hp : (buildResult P goal resume_text config goals_map suggestion_map
        skill_groups altMap prob).is_pass =
          decide (config.minimum_score_to_pass ≤
            (buildResult P goal resume_text config goals_map suggestion_map
              skill_groups altMap prob).score) := rfl
    rw [hp]
    exact decide_eq_true_iff

/-- Witness for C1 at a concrete input: one core skill, present in the
text, probability 1/2. -/
theorem c1_final_score_formula_witness :
    (buildResult exactPrims "g" "python" ⟨1/2, none⟩
        [("g", [⟨"python", "core"⟩])] [] [] [] (1/2)).score =
      0.6 * (1/2 : ℚ) + 0.4 * specC1SkillScore exactPrims []
        [("g", [⟨"python", "core"⟩])] "g" (exactPrims.lemmatize "python")
    ∧ ((buildResult exactPrims "g" "python" ⟨1/2, none⟩
          [("g", [⟨"python", "core"⟩])] [] [] [] (1/2)).is_pass = true ↔
        (⟨1/2, none⟩ : Config).minimum_score_to_pass ≤
          (buildResult exactPrims "g" "python" ⟨1/2, none⟩
            [("g", [⟨"python", "core"⟩])] [] [] [] (1/2)).score) :=
  c1_final_score_formula exactPrims "g" "python" ⟨1/2, none⟩
    [("g", [⟨"python", "core"⟩])] [] [] [] (1/2) _
    (by decide) (by decide)
    (by
      intro r hr
      have : goalReqs [("g", [(⟨"python", "core"⟩ : SkillReq)])] "g" =
          [⟨"python", "core"⟩] := by decide
      rw [this] at hr
      rcases List.mem_singleton.mp hr with rfl
      exact Or.inl rfl)
    (score_resume_ok exactPrims "g" "python" ⟨1/2, none⟩
      [("g", [⟨"python", "core"⟩])] [] [] [] (1/2) (by decide))

/-! ### Claim C2 — weight of unrecognized importance values -/

/-- **C2 counterexample.**  The claim is false at the goal
`[(a, core), (b, weird)]`, whose skill `b` has an importance outside
{core, important, nice_to_have}: the code's denominator is 3 while the
claim's nice_to_have-defaulted denominator is 4 (explicit disequality),
and with both skills matched the code's numerator is 3 while the claimed
matched contribution gives 4 (explicit disequality) — so the aggregator
gives the unrecognized-importance skill weight 0, not the nice_to_have
weight, in both sums. -/
theorem c2_counterexample :
    (("weird" : String) ≠ "core" ∧ ("weird" : String) ≠ "important" ∧
      ("weird" : String) ≠ "nice_to_have")
    ∧ totalSkillPoints [("g", [⟨"a", "core"⟩, ⟨"b", "weird"⟩])] "g" = 3
    ∧ specC2TotalPoints [("g", [⟨"a", "core"⟩, ⟨"b", "weird"⟩])] "g" = 4
    ∧ totalSkillPoints [("g", [⟨"a", "core"⟩, ⟨"b", "weird"⟩])] "g" ≠
        specC2TotalPoints [("g", [⟨"a", "core"⟩, ⟨"b", "weird"⟩])] "g"
    ∧ matchedSkills exactPrims [] [("g", [⟨"a", "core"⟩, ⟨"b", "weird"⟩])]
        "g" "a b" = ["a", "b"]
    ∧ matchedSkillPoints exactPrims [] [("g", [⟨"a", "core"⟩, ⟨"b", "weird"⟩])]
        "g" "a b" = 3
    ∧ specC2MatchedPoints exactPrims [] [("g", [⟨"a", "core"⟩, ⟨"b", "weird"⟩])]
        "g" "a b" = 4
    ∧ matchedSkillPoints exactPrims [] [("g", [⟨"a", "core"⟩, ⟨"b", "weird"⟩])]
        "g" "a b" ≠
        specC2MatchedPoints exactPrims [] [("g", [⟨"a", "core"⟩, ⟨"b", "weird"⟩])]
          "g" "a b" := by
  refine ⟨⟨by decide, by decide, by decide⟩, by decide, by decide, by decide,
    by decide, by decide, by decide, by decide⟩

/-- **C2 (amended).**  A required skill whose importance is not `core`,
`important` or `nice_to_have` receives weight 0 in both the denominator
and the numerator: with distinct requirement names the effective weight of
every requirement is `importanceWeight` of its actual importance (the
`"nice_to_have"` lookup default never fires, because every summed name has
an entry in the importance table), and `importanceWeight` is 0 on
unrecognized importances. -/
theorem c2_unknown_importance_weight (P : MatchPrims)
    (altMap : Dict (List String)) (goals_map : Dict (List SkillReq))
    (goal ltext : String)
    (h : ((goalReqs goals_map goal).map SkillReq.name).Nodup) :
    totalSkillPoints goals_map goal =
      ((goalReqs goals_map goal).map (fun r => importanceWeight r.importance)).sum
    ∧ matchedSkillPoints P altMap goals_map goal ltext =
        (((goalReqs goals_map goal).filter
            (fun r => skillMatched P altMap ltext r.name)).map
          (fun r => importanceWeight r.importance)).sum
    ∧ (∀ imp, imp ≠ "core" → imp ≠ "important" → imp ≠ "nice_to_have" →
        importanceWeight imp = 0) := by
  refine ⟨totalSkillPoints_eq goals_map goal h,
    matchedSkillPoints_eq P altMap goals_map goal ltext h, ?_⟩
  intro imp h1 h2 h3
  simp [importanceWeight, h1, h2, h3]

/-- Witness for the amended C2 at the counterexample's goal table. -/
theorem c2_unknown_importance_weight_witness :
    totalSkillPoints [("g", [⟨"a", "core"⟩, ⟨"b", "weird"⟩])] "g" =
      (([(⟨"a", "core"⟩ : SkillReq), ⟨"b", "weird"⟩]).map
        (fun r => importanceWeight r.importance)).sum := by
  have h := c2_unknown_importance_weight exactPrims []
    [("g", [⟨"a", "core"⟩, ⟨"b", "weird"⟩])] "g" "a b" (by decide)
  have h2 : goalReqs [("g", [(⟨"a", "core"⟩ : SkillReq), ⟨"b", "weird"⟩])] "g" =
      [⟨"a", "core"⟩, ⟨"b", "weird"⟩] := by decide
  rw [← h2]
  exact h.1

/-- Witness for C3's alternate-skipping part at a concrete input: with an
empty alternate table, the cascade is direct-or-partial. -/
theorem c3_resolver_cascade_witness :
    skillMatched exactPrims [] "some text" "skill" =
      (phrase_in_lemmatized_text exactPrims "skill" "some text" 70
        || phrase_in_lemmatized_text exactPrims "skill" "some text" 55) :=
  (c3_resolver_cascade exactPrims [] [] "g" "some text").2.2 "skill" (by decide)

/-! ### Claim C8 — blank resume text is rejected before any work -/

/-- **C8.** For every resume text that strips to empty, both the scorer
and the endpoint fail with the empty-input classification — for EVERY
goal, configuration, table, and classifier outcome (including an
unavailable model), which is exactly the sense in which no model loading,
matching or scoring work happens before the rejection. -/
theorem c8_empty_input (P : MatchPrims) (goal resume_text : String)
    (supported : List String) (config : Config)
    (goals_map : Dict (List SkillReq)) (suggestion_map : Dict String)
    (skill_groups : Dict (Dict (List String)))
    (alternate_skills_map : Dict (List String))
    (classifierProb : Except String ℚ)
    (h : pyStrip resume_text = "") :
    score_resume P goal resume_text config goals_map suggestion_map
        skill_groups alternate_skills_map classifierProb = .error .emptyResume
    ∧ post_score P goal resume_text supported config goals_map suggestion_map
        skill_groups alternate_skills_map classifierProb = .error .emptyInput := by
  constructor
  · unfold score_resume
    rw [if_pos h]
  · unfold post_score
    rw [if_pos h]

/-- Witness for C8 on whitespace-only text with a missing model artifact. -/
theorem c8_empty_input_witness :
    score_resume exactPrims "g" "   " ⟨1/2, none⟩ [] [] [] []
        (.error "model file missing") = .error .emptyResume
    ∧ post_score exactPrims "g" "   " ["g"] ⟨1/2, none⟩ [] [] [] []
        (.error "model file missing") = .error .emptyInput :=
  c8_empty_input exactPrims "g" "   " ["g"] ⟨1/2, none⟩ [] [] [] []
    (.error "model file missing") (by decide)

/-! ### Claim C9 — unsupported goal is rejected before any model load -/

/-- **C9.** For every goal outside the supported list (and non-blank
text), the endpoint fails with the unsupported-goal classification — for
EVERY classifier outcome, so before any model load; a supported goal whose
classifier artifact is unavailable instead yields the internal
(missing-artifact) classification, and the two classifications are
distinct constructors. -/
theorem c9_unsupported_goal (P : MatchPrims) (goal resume_text : String)
    (supported : List String) (config : Config)
    (goals_map : Dict (List SkillReq)) (suggestion_map : Dict String)
    (skill_groups : Dict (Dict (List String)))
    (alternate_skills_map : Dict (List String))
    (classifierProb : Except String ℚ)
    (h1 : pyStrip resume_text ≠ "") (h2 : goal ∉ supported) :
    post_score P goal resume_text supported config goals_map suggestion_map
        skill_groups alternate_skills_map classifierProb =
      .error (.unsupportedGoal goal)
    ∧ (∀ g' (e : String), g' ∈ supported →
        post_score P g' resume_text supported config goals_map suggestion_map
            skill_groups alternate_skills_map (.error e) =
          .error (.internalError ("Error processing resume: " ++ e)))
    ∧ (∀ g m : String, ApiError.unsupportedGoal g ≠ ApiError.internalError m) := by
  refine ⟨?_, ?_, ?_⟩
  · unfold post_score
    rw [if_neg h1, if_pos]
    simpa using h2
  · intro g' e hg'
    have hs : score_resume P g' resume_text config goals_map suggestion_map
        skill_groups alternate_skills_map (.error e) = .error (.modelError e) := by
      unfold score_resume
      rw [if_neg h1]
    unfold post_score
    rw [if_neg h1, if_neg (not_not_intro (by simpa using hg')), hs]
  · intro g m hc
    exact ApiError.noConfusion hc

/-- Witness for C9 at concrete inputs: goal "x" unsupported, goal "g"
supported but with a missing artifact. -/
theorem c9_unsupported_goal_witness :
    post_score exactPrims "x" "some text" ["g"] ⟨1/2, none⟩ [] [] [] []
        (.error "artifact gone") = .error (.unsupportedGoal "x")
    ∧ post_score exactPrims "g" "some text" ["g"] ⟨1/2, none⟩ [] [] [] []
        (.error "artifact gone") =
      .error (.internalError ("Error processing resume: " ++ "artifact gone")) := by
  have h := c9_unsupported_goal exactPrims "x" "some text" ["g"] ⟨1/2, none⟩
    [] [] [] [] (.error "artifact gone") (by decide) (by decide)
  exact ⟨h.1, h.2.1 "g" "artifact gone" (by decide)⟩

/-! ### Order properties of the sort relations -/

/-- `charListLe` is total. -/
theorem charListLe_total : ∀ x y : List Char,
    charListLe x y = true ∨ charListLe y x = true := by
  intro x
  induction x with
  | nil => intro y; left; rfl
  | cons a as ih =>
      intro y
      cases y with
      | nil => right; rfl
      | cons b bs =>
          unfold charListLe
          by_cases h1 : a.toNat < b.toNat
          · left; rw [if_pos h1]
          · by_cases h2 : b.toNat < a.toNat
            · right; rw [if_pos h2]
            · rw [if_neg h1, if_neg h2, if_neg h2, if_neg h1]
              exact ih bs

/-- `charListLe` is transitive. -/
theorem charListLe_trans : ∀ x y z : List Char,
    charListLe x y = true → charListLe y z = true → charListLe x z = true := by
  intro x
  induction x with
  | nil => intro y z _ _; rfl
  | cons a as ih =>
      intro y z hxy hyz
      cases y with
      | nil => simp [charListLe] at hxy
      | cons b bs =>
          cases z with
          | nil => simp [charListLe] at hyz
          | cons c cs =>
              simp only [charListLe] at hxy hyz ⊢
              by_cases h1 : a.toNat < b.toNat
              · by_cases h2 : b.toNat < c.toNat
                · rw [if_pos (by omega)]
                · rw [if_neg h2] at hyz
                  by_cases h3 : c.toNat < b.toNat
                  · rw [if_pos h3] at hyz
                    cases hyz
                  · rw [if_pos (by omega)]
              · rw [if_neg h1] at hxy
                by_cases h4 : b.toNat < a.toNat
                · rw [if_pos h4] at hxy
                  cases hxy
                · rw [if_neg h4] at hxy
                  by_cases h2 : b.toNat < c.toNat
                  · rw [if_pos (by omega)]
                  · rw [if_neg h2] at hyz
                    by_cases h3 : c.toNat < b.toNat
                    · rw [if_pos h3] at hyz
                      cases hyz
                    · rw [if_neg h3] at hyz
                      rw [if_neg (by omega), if_neg (by omega)]
                      exact ih bs cs hxy hyz

instance : IsTotal String pyStrLe :=
  ⟨fun a b => charListLe_total a.data b.data⟩

instance : IsTrans String pyStrLe :=
  ⟨fun a b c => charListLe_trans a.data b.data c.data⟩

instance : IsTotal (String × String) missingLE := ⟨by
  intro a b
  unfold missingLE
  rcases Nat.lt_trichotomy (importanceRank a.2) (importanceRank b.2) with h | h | h
  · exact Or.inl (Or.inl h)
  · rcases charListLe_total a.1.data b.1.data with hs | hs
    · exact Or.inl (Or.inr ⟨h, hs⟩)
    · exact Or.inr (Or.inr ⟨h.symm, hs⟩)
  · exact Or.inr (Or.inl h)⟩

instance : IsTrans (String × String) missingLE := ⟨by
  intro a b c hab hbc
  unfold missingLE at hab hbc ⊢
  rcases hab with h1 | ⟨h1, hs1⟩ <;> rcases hbc with h2 | ⟨h2, hs2⟩
  · exact Or.inl (by omega)
  · exact Or.inl (by omega)
  · exact Or.inl (by omega)
  · exact Or.inr ⟨by omega, charListLe_trans _ _ _ hs1 hs2⟩⟩

/-! ### Claim C5 — order and cap of the returned missing_skills -/

/-- **C5 counterexample.**  On a goal with a missing `nice_to_have` skill
"apple" and a missing `core` skill "zebra", the returned `missing_skills`
is `["apple", "zebra"]` (alphabetical, line 216 of the source), which is
NOT sorted by (importance rank, name) — that order would put the core
skill "zebra" first. -/
theorem c5_counterexample :
    ((score_resume exactPrims "g" "nothing relevant" ⟨1/2, none⟩
          [("g", [⟨"apple", "nice_to_have"⟩, ⟨"zebra", "core"⟩])] [] [] []
          (.ok (1/2))).toOption.map (fun r => r.missing_skills)) =
      some ["apple", "zebra"]
    ∧ ¬ specRankNameOrdered
        [("g", [⟨"apple", "nice_to_have"⟩, ⟨"zebra", "core"⟩])] "g"
        ["apple", "zebra"] := by
  constructor
  · decide
  · unfold specRankNameOrdered
    decide

/-- **C5 (amended).**  The (importance rank, name) ordering determines
WHICH missing skills survive the `max_missing_skills` cap: the returned
`missing_skills` is the alphabetical sort of the first `max_missing_skills`
names of the rank-then-name-sorted missing list.  The returned list is
sorted alphabetically (not by rank), its length never exceeds the cap, and
the intermediate selection list is sorted by (rank, name) and is a
permutation of the uncapped missing set. -/
theorem c5_missing_cap_and_sort (P : MatchPrims) (goal resume_text : String)
    (config : Config) (goals_map : Dict (List SkillReq))
    (suggestion_map : Dict String) (skill_groups : Dict (Dict (List String)))
    (altMap : Dict (List String)) (prob : ℚ) (res : ScoringResult)
    (hne : pyStrip resume_text ≠ "")
    (hres : score_resume P goal resume_text config goals_map suggestion_map
        skill_groups altMap (.ok prob) = .ok res) :
    res.missing_skills =
      sortAlpha (cappedMissingNames P altMap goals_map goal
        (P.lemmatize resume_text) (config.max_missing_skills.getD 15))
    ∧ List.Sorted pyStrLe res.missing_skills
    ∧ res.missing_skills.length ≤ config.max_missing_skills.getD 15
    ∧ List.Sorted missingLE
        (sortedMissingSkills P altMap goals_map goal (P.lemmatize resume_text))
    ∧ (sortedMissingSkills P altMap goals_map goal (P.lemmatize resume_text)).Perm
        (allMissingSkills P altMap goals_map goal (P.lemmatize resume_text)) := by
  rw [score_resume_ok P goal resume_text config goals_map suggestion_map
    skill_groups altMap prob hne] at hres
  have hres' : buildResult P goal resume_text config goals_map suggestion_map
      skill_groups altMap prob = res := by injection hres
  subst hres'
  refine ⟨rfl, ?_, ?_, ?_, ?_⟩
  · exact List.sorted_insertionSort pyStrLe _
  · show (sortAlpha (cappedMissingNames P altMap goals_map goal
      (P.lemmatize resume_text) (config.max_missing_skills.getD 15))).length ≤ _
    unfold sortAlpha
    rw [List.length_insertionSort]
    unfold cappedMissingNames
    rw [List.length_take]
    exact min_le_left _ _
  · exact List.sorted_insertionSort missingLE _
  · exact List.perm_insertionSort missingLE _

/-- Witness for the amended C5 at the counterexample's input: the returned
list is capped by 15. -/
theorem c5_missing_cap_and_sort_witness :
    (buildResult exactPrims "g" "nothing relevant" ⟨1/2, none⟩
        [("g", [⟨"apple", "nice_to_have"⟩, ⟨"zebra", "core"⟩])] [] [] []
        (1/2)).missing_skills.length ≤
      ((⟨1/2, none⟩ : Config)).max_missing_skills.getD 15 :=
  (c5_missing_cap_and_sort exactPrims "g" "nothing relevant" ⟨1/2, none⟩
    [("g", [⟨"apple", "nice_to_have"⟩, ⟨"zebra", "core"⟩])] [] [] [] (1/2) _
    (by decide)
    (score_resume_ok exactPrims "g" "nothing relevant" ⟨1/2, none⟩
      [("g", [⟨"apple", "nice_to_have"⟩, ⟨"zebra", "core"⟩])] [] [] [] (1/2)
      (by decide))).2.2.1

/-! ### Claim C6 — alignment of suggestions with missing_skills -/

/-- **C6 counterexample.**  With missing skills "apple" (nice_to_have) and
"zebra" (core) and suggestion table {zebra↦Z, apple↦A}, the returned
suggestions are `["Z", "A"]` (rank-then-name order of the capped list)
while the returned `missing_skills` is `["apple", "zebra"]`
(alphabetical); looking the i-th returned missing skill up in the
suggestion table gives `["A", "Z"]` — the lists are NOT aligned 1:1. -/
theorem c6_counterexample :
    ((score_resume exactPrims "g" "nothing relevant" ⟨1/2, none⟩
          [("g", [⟨"apple", "nice_to_have"⟩, ⟨"zebra", "core"⟩])]
          [("zebra", "Z"), ("apple", "A")] [] []
          (.ok (1/2))).toOption.map (fun r =>
        (r.suggested_learning_path,
          r.missing_skills.map
            (suggestionFor [("zebra", "Z"), ("apple", "A")])))) =
      some (["Z", "A"], ["A", "Z"])
    ∧ (["Z", "A"] : List String) ≠ ["A", "Z"] := by
  exact ⟨by decide, by decide⟩

/-- **C6 (amended).**  The i-th suggestion is the suggestion-table entry
(or the generic "Learn basics of <skill>" fallback) for the i-th element
of the CAPPED missing list in (importance rank, name) order — the list
before the final alphabetical sort.  That capped list is a permutation of
the returned `missing_skills`, so the suggestions correspond to the
returned missing skills as a multiset, but not index-by-index. -/
theorem c6_suggestions_follow_capped_order (P : MatchPrims)
    (goal resume_text : String) (config : Config)
    (goals_map : Dict (List SkillReq)) (suggestion_map : Dict String)
    (skill_groups : Dict (Dict (List String)))
    (altMap : Dict (List String)) (prob : ℚ) (res : ScoringResult)
    (hne : pyStrip resume_text ≠ "")
    (hres : score_resume P goal resume_text config goals_map suggestion_map
        skill_groups altMap (.ok prob) = .ok res) :
    res.suggested_learning_path =
      (cappedMissingNames P altMap goals_map goal (P.lemmatize resume_text)
        (config.max_missing_skills.getD 15)).map (suggestionFor suggestion_map)
    ∧ (cappedMissingNames P altMap goals_map goal (P.lemmatize resume_text)
        (config.max_missing_skills.getD 15)).Perm res.missing_skills := by
  rw [score_resume_ok P goal resume_text config goals_map suggestion_map
    skill_groups altMap prob hne] at hres
  have hres' : buildResult P goal resume_text config goals_map suggestion_map
      skill_groups altMap prob = res := by injection hres
  subst hres'
  exact ⟨rfl, (List.perm_insertionSort pyStrLe _).symm⟩

/-- Witness for the amended C6 at the counterexample's input. -/
theorem c6_suggestions_follow_capped_order_witness :
    (buildResult exactPrims "g" "nothing relevant" ⟨1/2, none⟩
        [("g", [⟨"apple", "nice_to_have"⟩, ⟨"zebra", "core"⟩])]
        [("zebra", "Z"), ("apple", "A")] [] [] (1/2)).suggested_learning_path =
      (cappedMissingNames exactPrims []
        [("g", [⟨"apple", "nice_to_have"⟩, ⟨"zebra", "core"⟩])] "g"
        (exactPrims.lemmatize "nothing relevant")
        (((⟨1/2, none⟩ : Config)).max_missing_skills.getD 15)).map
        (suggestionFor [("zebra", "Z"), ("apple", "A")]) :=
  (c6_suggestions_follow_capped_order exactPrims "g" "nothing relevant"
    ⟨1/2, none⟩ [("g", [⟨"apple", "nice_to_have"⟩, ⟨"zebra", "core"⟩])]
    [("zebra", "Z"), ("apple", "A")] [] [] (1/2) _ (by decide)
    (score_resume_ok exactPrims "g" "nothing relevant" ⟨1/2, none⟩
      [("g", [⟨"apple", "nice_to_have"⟩, ⟨"zebra", "core"⟩])]
      [("zebra", "Z"), ("apple", "A")] [] [] (1/2) (by decide))).1

/-! ### Claim C7 — matched / grouped-missing partition -/

/-- Membership in the matched list. -/
theorem mem_matchedSkills_iff (P : MatchPrims) (am : Dict (List String))
    (gm : Dict (List SkillReq)) (goal ltext s : String) :
    s ∈ matchedSkills P am gm goal ltext ↔
      s ∈ goalSkillNames gm goal ∧ skillMatched P am ltext s = true := by
  unfold matchedSkills
  rw [List.mem_filter]

/-- The names of the uncapped missing list are exactly the required names
that fail the cascade. -/
theorem mem_allMissing_fst_iff (P : MatchPrims) (am : Dict (List String))
    (gm : Dict (List SkillReq)) (goal ltext s : String) :
    s ∈ (allMissingSkills P am gm goal ltext).map Prod.fst ↔
      s ∈ goalSkillNames gm goal ∧ skillMatched P am ltext s = false := by
  unfold allMissingSkills
  rw [List.map_map]
  simp only [Function.comp_def, List.map_id']
  rw [List.mem_filter]
  simp

/-- Membership survives the alphabetical sort. -/
theorem mem_sortAlpha (s : String) (l : List String) :
    s ∈ sortAlpha l ↔ s ∈ l := by
  unfold sortAlpha
  exact List.mem_insertionSort pyStrLe

/-- Everything inside a produced group entry is a required, unmatched
skill name. -/
theorem groupEntry_some_mem (P : MatchPrims) (am : Dict (List String))
    (gm : Dict (List SkillReq)) (goal ltext : String)
    (gp : String × List String) (gl : String × List String)
    (h : groupEntry P am gm goal ltext gp = some gl)
    (s : String) (hs : s ∈ gl.2) :
    s ∈ goalSkillNames gm goal ∧ skillMatched P am ltext s = false := by
  simp only [groupEntry] at h
  split at h
  · split at h
    · have h2 := (Option.some.injEq _ _).mp h
      rw [← h2] at hs
      simp only at hs
      rw [mem_sortAlpha, List.mem_filter] at hs
      obtain ⟨hs1, hs2⟩ := hs
      rw [List.mem_filter] at hs1
      refine ⟨hs1.1, ?_⟩
      simp only [decide_not, Bool.not_eq_true', decide_eq_false_iff_not] at hs2
      by_contra hm
      rw [Bool.not_eq_false] at hm
      exact hs2 (by
        simp only [List.elem_eq_mem, decide_eq_true_eq]
        exact (mem_matchedSkills_iff P am gm goal ltext s).mpr ⟨hs1.1, hm⟩)
    · cases h
  · split at h
    · have h2 := (Option.some.injEq _ _).mp h
      rw [← h2] at hs
      simp only at hs
      rw [mem_sortAlpha, List.mem_filter] at hs
      obtain ⟨hs1, _⟩ := hs
      exact (mem_allMissing_fst_iff P am gm goal ltext s).mp hs1
    · cases h

/-- A required, unmatched skill listed in a group always survives into
that group's produced entry. -/
theorem groupEntry_covers (P : MatchPrims) (am : Dict (List String))
    (gm : Dict (List SkillReq)) (goal ltext : String)
    (gp : String × List String) (s : String)
    (hs : s ∈ goalSkillNames gm goal)
    (hnm : skillMatched P am ltext s = false)
    (hsg : s ∈ gp.2) :
    ∃ gl, groupEntry P am gm goal ltext gp = some gl ∧ s ∈ gl.2 := by
  have hgsn : s ∈ (goalSkillNames gm goal).filter (fun x => gp.2.contains x) := by
    rw [List.mem_filter]
    exact ⟨hs, by simpa [List.elem_eq_mem] using hsg⟩
  have hsnotm : s ∉ matchedSkills P am gm goal ltext := by
    intro hmem
    rw [mem_matchedSkills_iff] at hmem
    rw [hmem.2] at hnm
    cases hnm
  simp only [groupEntry]
  split
  · have hrec : s ∈ sortAlpha (((goalSkillNames gm goal).filter
        (fun x => gp.2.contains x)).filter
          (fun x => ¬ (matchedSkills P am gm goal ltext).contains x)) := by
      rw [mem_sortAlpha, List.mem_filter]
      refine ⟨hgsn, ?_⟩
      simp only [decide_not, Bool.not_eq_true', decide_eq_false_iff_not,
        List.elem_eq_mem, decide_eq_true_eq]
      simpa using hsnotm
    rw [if_pos (List.ne_nil_of_mem hrec)]
    exact ⟨_, rfl, hrec⟩
  · have hmiss : s ∈ (((allMissingSkills P am gm goal ltext).map Prod.fst).filter
        (fun x => (((goalSkillNames gm goal).filter
          (fun y => gp.2.contains y))).contains x)) := by
      rw [List.mem_filter]
      refine ⟨(mem_allMissing_fst_iff P am gm goal ltext s).mpr ⟨hs, hnm⟩, ?_⟩
      simpa [List.elem_eq_mem] using hgsn
    rw [if_pos (List.ne_nil_of_mem hmiss)]
    exact ⟨_, rfl, by
      simp only
      rw [mem_sortAlpha]
      exact hmiss⟩

/-- **C7 counterexample.**  A goal with one required core skill "x", no
reporting groups, and a resume matching nothing: the result has empty
`matched_skills` and empty `missing_skills_grouped`, so the required skill
"x" appears in neither — matched and grouped-missing do NOT cover every
required skill. -/
theorem c7_counterexample :
    ((score_resume exactPrims "g" "nothing" ⟨1/2, none⟩
          [("g", [⟨"x", "core"⟩])] [] [] []
          (.ok (1/2))).toOption.map
        (fun r => (r.matched_skills, r.missing_skills_grouped))) = some ([], [])
    ∧ "x" ∈ goalSkillNames [("g", [⟨"x", "core"⟩])] "g" :=
  ⟨by decide, by decide⟩

/-- **C7 (amended).**  `matched_skills` and the union of names in
`missing_skills_grouped`'s lists are disjoint, and every required skill is
either matched or in the uncapped missing set; but coverage by the report
holds only through the reporting groups: an unmatched required skill
appears in some group's list exactly when some group of the goal contains
it.  (A missing skill that belongs to no reporting group appears in no
group entry, so the two sets need not cover all requirements.) -/
theorem c7_matched_grouped_partition (P : MatchPrims)
    (goal resume_text : String) (config : Config)
    (goals_map : Dict (List SkillReq)) (suggestion_map : Dict String)
    (skill_groups : Dict (Dict (List String)))
    (altMap : Dict (List String)) (prob : ℚ) (res : ScoringResult)
    (hne : pyStrip resume_text ≠ "")
    (hres : score_resume P goal resume_text config goals_map suggestion_map
        skill_groups altMap (.ok prob) = .ok res) :
    (∀ s ∈ res.matched_skills, ∀ gl ∈ res.missing_skills_grouped, s ∉ gl.2)
    ∧ (∀ s ∈ goalSkillNames goals_map goal,
        s ∈ res.matched_skills ∨
          s ∈ (allMissingSkills P altMap goals_map goal
            (P.lemmatize resume_text)).map Prod.fst)
    ∧ (∀ s ∈ goalSkillNames goals_map goal, s ∉ res.matched_skills →
        (∃ gp ∈ pyGetD skill_groups goal [], s ∈ gp.2) →
        ∃ gl ∈ res.missing_skills_grouped, s ∈ gl.2) := by
  rw [score_resume_ok P goal resume_text config goals_map suggestion_map
    skill_groups altMap prob hne] at hres
  have hres' : buildResult P goal resume_text config goals_map suggestion_map
      skill_groups altMap prob = res := by injection hres
  subst hres'
  have hm : (buildResult P goal resume_text config goals_map suggestion_map
      skill_groups altMap prob).matched_skills =
        sortAlpha (matchedSkills P altMap goals_map goal
          (P.lemmatize resume_text)) := rfl
  have hg : (buildResult P goal resume_text config goals_map suggestion_map
      skill_groups altMap prob).missing_skills_grouped =
        missingGrouped P altMap goals_map goal skill_groups
          (P.lemmatize resume_text) := rfl
  rw [hm, hg]
  refine ⟨?_, ?_, ?_⟩
  · intro s hsm gl hgl hsgl
    rw [mem_sortAlpha, mem_matchedSkills_iff] at hsm
    unfold missingGrouped at hgl
    obtain ⟨gp, _, hentry⟩ := List.mem_filterMap.mp hgl
    have := (groupEntry_some_mem P altMap goals_map goal
      (P.lemmatize resume_text) gp gl hentry s hsgl).2
    rw [hsm.2] at this
    cases this
  · intro s hsn
    cases hmt : skillMatched P altMap (P.lemmatize resume_text) s with
    | true =>
        left
        rw [mem_sortAlpha, mem_matchedSkills_iff]
        exact ⟨hsn, hmt⟩
    | false =>
        right
        exact (mem_allMissing_fst_iff P altMap goals_map goal
          (P.lemmatize resume_text) s).mpr ⟨hsn, hmt⟩
  · intro s hsn hsnm hgrp
    have hmt : skillMatched P altMap (P.lemmatize resume_text) s = false := by
      cases hmt : skillMatched P altMap (P.lemmatize resume_text) s with
      | true =>
          exact absurd ((mem_sortAlpha s _).mpr
            ((mem_matchedSkills_iff P altMap goals_map goal
              (P.lemmatize resume_text) s).mpr ⟨hsn, hmt⟩)) hsnm
      | false => rfl
    obtain ⟨gp, hgp, hsgp⟩ := hgrp
    obtain ⟨gl, hentry, hsgl⟩ := groupEntry_covers P altMap goals_map goal
      (P.lemmatize resume_text) gp s hsn hmt hsgp
    refine ⟨gl, ?_, hsgl⟩
    unfold missingGrouped
    exact List.mem_filterMap.mpr ⟨gp, hgp, hentry⟩

/-- Witness for the amended C7: the single required skill is matched or
missing. -/
theorem c7_matched_grouped_partition_witness :
    "x" ∈ (buildResult exactPrims "g" "nothing" ⟨1/2, none⟩
        [("g", [⟨"x", "core"⟩])] [] [] [] (1/2)).matched_skills ∨
      "x" ∈ (allMissingSkills exactPrims [] [("g", [⟨"x", "core"⟩])] "g"
        (exactPrims.lemmatize "nothing")).map Prod.fst :=
  (c7_matched_grouped_partition exactPrims "g" "nothing" ⟨1/2, none⟩
    [("g", [⟨"x", "core"⟩])] [] [] [] (1/2) _ (by decide)
    (score_resume_ok exactPrims "g" "nothing" ⟨1/2, none⟩
      [("g", [⟨"x", "core"⟩])] [] [] [] (1/2) (by decide))).2.1
    "x" (by decide)

/-! ### Claim C10 — grouped insights come from the uncapped missing set -/

/-- **C10.** `missing_skills_grouped` is computed from the full uncapped
missing set: it is identical across scoring calls that differ only in the
configuration (in particular in `max_missing_skills`) and the classifier
probability; and at a concrete input with cap 1, the beyond-cap missing
skill "apple" appears in the group's list while being absent from the
returned `missing_skills`. -/
theorem c10_grouped_uses_uncapped (P : MatchPrims) (goal resume_text : String)
    (config config' : Config) (goals_map : Dict (List SkillReq))
    (suggestion_map : Dict String) (skill_groups : Dict (Dict (List String)))
    (altMap : Dict (List String)) (prob prob' : ℚ) (res res' : ScoringResult)
    (hne : pyStrip resume_text ≠ "")
    (h1 : score_resume P goal resume_text config goals_map suggestion_map
        skill_groups altMap (.ok prob) = .ok res)
    (h2 : score_resume P goal resume_text config' goals_map suggestion_map
        skill_groups altMap (.ok prob') = .ok res') :
    res.missing_skills_grouped = res'.missing_skills_grouped
    ∧ ((score_resume exactPrims "g" "nothing relevant" ⟨1/2, some 1⟩
          [("g", [⟨"apple", "nice_to_have"⟩, ⟨"zebra", "core"⟩])] []
          [("g", [("grp", ["apple", "zebra"])])] []
          (.ok (1/2))).toOption.map (fun r => r.missing_skills)) = some ["zebra"]
    ∧ ((score_resume exactPrims "g" "nothing relevant" ⟨1/2, some 1⟩
          [("g", [⟨"apple", "nice_to_have"⟩, ⟨"zebra", "core"⟩])] []
          [("g", [("grp", ["apple", "zebra"])])] []
          (.ok (1/2))).toOption.map (fun r => r.missing_skills_grouped)) =
        some [("grp", ["apple", "zebra"])]
    ∧ "apple" ∈ (["apple", "zebra"] : List String)
    ∧ "apple" ∉ (["zebra"] : List String) := by
  rw [score_resume_ok P goal resume_text config goals_map suggestion_map
    skill_groups altMap prob hne] at h1
  rw [score_resume_ok P goal resume_text config' goals_map suggestion_map
    skill_groups altMap prob' hne] at h2
  have e1 : buildResult P goal resume_text config goals_map suggestion_map
      skill_groups altMap prob = res := by injection h1
  have e2 : buildResult P goal resume_text config' goals_map suggestion_map
      skill_groups altMap prob' = res' := by injection h2
  subst e1
  subst e2
  exact ⟨rfl, by decide, by decide, by decide, by decide⟩

/-- Witness for C10: the grouped report is unchanged between cap 1 and the
default cap. -/
theorem c10_grouped_uses_uncapped_witness :
    (buildResult exactPrims "g" "nothing relevant" ⟨1/2, some 1⟩
        [("g", [⟨"apple", "nice_to_have"⟩, ⟨"zebra", "core"⟩])] []
        [("g", [("grp", ["apple", "zebra"])])] [] (1/2)).missing_skills_grouped =
      (buildResult exactPrims "g" "nothing relevant" ⟨1/2, none⟩
        [("g", [⟨"apple", "nice_to_have"⟩, ⟨"zebra", "core"⟩])] []
        [("g", [("grp", ["apple", "zebra"])])] [] (1/2)).missing_skills_grouped :=
  (c10_grouped_uses_uncapped exactPrims "g" "nothing relevant"
    ⟨1/2, some 1⟩ ⟨1/2, none⟩
    [("g", [⟨"apple", "nice_to_have"⟩, ⟨"zebra", "core"⟩])] []
    [("g", [("grp", ["apple", "zebra"])])] [] (1/2) (1/2) _ _ (by decide)
    (score_resume_ok exactPrims "g" "nothing relevant" ⟨1/2, some 1⟩
      [("g", [⟨"apple", "nice_to_have"⟩, ⟨"zebra", "core"⟩])] []
      [("g", [("grp", ["apple", "zebra"])])] [] (1/2) (by decide))
    (score_resume_ok exactPrims "g" "nothing relevant" ⟨1/2, none⟩
      [("g", [⟨"apple", "nice_to_have"⟩, ⟨"zebra", "core"⟩])] []
      [("g", [("grp", ["apple", "zebra"])])] [] (1/2) (by decide))).1

end ResumeScorer
